import Mathlib

/-!
Verification development for the telemetry bootstrap of a Rust cloud service.

The Rust sources under `src/telemetry/` are shallowly embedded: pure Rust
functions become Lean functions, environment-variable reads become fields of an
explicit `Env` record, the ambient credential chain and the process-global
tracing state become an explicit `World` record that is passed and returned,
and fallible Rust code returns `Except`/an explicit outcome type.
-/

/-- Environment variables the telemetry code reads (`std::env::var`).
`none` models an unset variable, `some s` a set one. -/
structure Env where
  googleCloudProject : Option String
  gcloudProject : Option String
  gcpProject : Option String
  otelExporterOtlpEndpoint : Option String
  otelServiceName : Option String
  otelServiceVersion : Option String
  rustLog : Option String
  logFormatVar : Option String
  kService : Option String
  kRevision : Option String
  functionName : Option String
  functionTarget : Option String
  gaeService : Option String
  gaeVersion : Option String
  cloudRunRegion : Option String
  functionRegion : Option String
  gaeRegion : Option String
deriving DecidableEq

/-- An `Env` with every variable unset, for building concrete test points. -/
def Env.empty : Env :=
  ⟨none, none, none, none, none, none, none, none, none,
   none, none, none, none, none, none, none, none⟩

/-- `LogFormat` from `src/telemetry/config.rs`. -/
inductive LogFormat where
  | Pretty
  | Json
deriving DecidableEq

/-- `GcpPlatform` from `src/telemetry/gcp/config.rs`. -/
inductive GcpPlatform where
  | CloudRun
  | CloudFunctions
  | AppEngine
  | ComputeEngine
  | KubernetesEngine
deriving DecidableEq

/-- `GcpPlatform::as_str` from `src/telemetry/gcp/config.rs`. -/
def GcpPlatform.as_str : GcpPlatform → String
  | .CloudRun => "gcp_cloud_run"
  | .CloudFunctions => "gcp_cloud_functions"
  | .AppEngine => "gcp_app_engine"
  | .ComputeEngine => "gcp_compute_engine"
  | .KubernetesEngine => "gcp_kubernetes_engine"

/-- `GcpPlatform::detect` from `src/telemetry/gcp/config.rs`: platform
auto-detection from environment markers. -/
def GcpPlatform.detect (e : Env) : Option GcpPlatform :=
  if e.kService.isSome ∨ e.kRevision.isSome then some .CloudRun
  else if e.functionName.isSome ∨ e.functionTarget.isSome then some .CloudFunctions
  else if e.gaeService.isSome ∨ e.gaeVersion.isSome then some .AppEngine
  else none

/-- `DEFAULT_ENDPOINT` from `src/telemetry/gcp/config.rs`. -/
def DEFAULT_ENDPOINT : String := "https://telemetry.googleapis.com"

/-- `GcpConfig` from `src/telemetry/gcp/config.rs`. -/
structure GcpConfig where
  project_id : String
  endpoint : String
  platform : GcpPlatform
deriving DecidableEq

/-- `GcpConfig::new` from `src/telemetry/gcp/config.rs`. -/
def GcpConfig.new (project_id : String) : GcpConfig :=
  ⟨project_id, DEFAULT_ENDPOINT, .CloudRun⟩

/-- The project-id lookup chain of `GcpConfig::from_env`:
`GOOGLE_CLOUD_PROJECT` or else `GCLOUD_PROJECT` or else `GCP_PROJECT`. -/
def Env.projectIdChain (e : Env) : Option String :=
  (e.googleCloudProject.orElse fun _ => e.gcloudProject).orElse fun _ => e.gcpProject

/-- `GcpConfig::from_env` from `src/telemetry/gcp/config.rs`. -/
def GcpConfig.from_env (e : Env) : Option GcpConfig :=
  match e.projectIdChain with
  | none => none
  | some project_id =>
    some ⟨project_id,
          e.otelExporterOtlpEndpoint.getD DEFAULT_ENDPOINT,
          (GcpPlatform.detect e).getD .CloudRun⟩

/-- `TelemetryBackend` from `src/telemetry/config.rs` (with the
`telemetry-gcp` feature enabled, as the spec describes both variants). -/
inductive TelemetryBackend where
  | Local
  | Gcp (cfg : GcpConfig)
deriving DecidableEq

/-- `TelemetryBackend::from_env` from `src/telemetry/config.rs`:
GCP backend if a GCP project is configured, otherwise Local. -/
def TelemetryBackend.from_env (e : Env) : TelemetryBackend :=
  match GcpConfig.from_env e with
  | some gcp_config => .Gcp gcp_config
  | none => .Local

/-- `CARGO_PKG_NAME`. Modelled from the spec: the crate manifest is not part
of `src/`; the crate is named after the repository (the literal
`"rust-cloud-run-service"` also appears as the service name in
`src/telemetry.rs`). Cargo requires a non-empty package name. -/
def CARGO_PKG_NAME : String := "rust-cloud-run-service"

/-- `CARGO_PKG_VERSION`. Modelled from the spec: the crate manifest is not
part of `src/`; Cargo requires a non-empty package version. -/
def CARGO_PKG_VERSION : String := "0.1.0"

/-- `TelemetryConfig` from `src/telemetry/config.rs`. -/
structure TelemetryConfig where
  service_name : String
  service_version : String
  otlp_endpoint : Option String
  log_level : String
  log_format : LogFormat
  backend : TelemetryBackend
deriving DecidableEq

/-- `TelemetryConfig::from_env` from `src/telemetry/config.rs`. -/
def TelemetryConfig.from_env (e : Env) : TelemetryConfig :=
  { service_name := e.otelServiceName.getD CARGO_PKG_NAME
    service_version := e.otelServiceVersion.getD CARGO_PKG_VERSION
    otlp_endpoint := e.otelExporterOtlpEndpoint
    log_level := e.rustLog.getD "info"
    log_format :=
      match e.logFormatVar with
      | some "json" => .Json
      | some "pretty" => .Pretty
      | _ => .Pretty
    backend := TelemetryBackend.from_env e }

/-- `TelemetryConfig::new` from `src/telemetry/config.rs`. -/
def TelemetryConfig.new (service_name service_version : String) : TelemetryConfig :=
  ⟨service_name, service_version, none, "info", .Pretty, .Local⟩

/-- `TelemetryConfig::with_log_format`. -/
def TelemetryConfig.with_log_format (c : TelemetryConfig) (f : LogFormat) : TelemetryConfig :=
  { c with log_format := f }

/-- `TelemetryConfig::with_backend`. -/
def TelemetryConfig.with_backend (c : TelemetryConfig) (b : TelemetryBackend) : TelemetryConfig :=
  { c with backend := b }

/-- `TelemetryConfig::with_otlp_endpoint`. -/
def TelemetryConfig.with_otlp_endpoint (c : TelemetryConfig) (e : String) : TelemetryConfig :=
  { c with otlp_endpoint := some e }

/-- `TelemetryConfig::with_log_level`. -/
def TelemetryConfig.with_log_level (c : TelemetryConfig) (l : String) : TelemetryConfig :=
  { c with log_level := l }

/-- `TelemetryConfigBuilder` from `src/telemetry/config.rs`. -/
structure TelemetryConfigBuilder where
  service_name : Option String := none
  service_version : Option String := none
  otlp_endpoint : Option String := none
  log_level : Option String := none
  log_format : Option LogFormat := none
  backend : Option TelemetryBackend := none
deriving DecidableEq

/-- The `Default` instance of `TelemetryConfigBuilder` (all fields `None`). -/
def TelemetryConfigBuilder.default : TelemetryConfigBuilder := {}

/-- `TelemetryConfigBuilder::build` from `src/telemetry/config.rs`. -/
def TelemetryConfigBuilder.build (b : TelemetryConfigBuilder) : TelemetryConfig :=
  { service_name := b.service_name.getD CARGO_PKG_NAME
    service_version := b.service_version.getD CARGO_PKG_VERSION
    otlp_endpoint := b.otlp_endpoint
    log_level := b.log_level.getD "info"
    log_format := b.log_format.getD .Pretty
    backend := b.backend.getD .Local }

/-! ## Resource builder (`src/telemetry/resource.rs`) -/

/-- `opentelemetry::KeyValue`, restricted to the string values this
repository puts into resources. -/
structure KeyValue where
  key : String
  value : String
deriving DecidableEq

/-- The `SERVICE_NAME` semantic-convention key. -/
def SERVICE_NAME : String := "service.name"

/-- The `SERVICE_VERSION` semantic-convention key. -/
def SERVICE_VERSION : String := "service.version"

/-- `opentelemetry_sdk::Resource`, modelled as its ordered attribute list;
`Resource::builder().with_attributes(a).build()` collects `a` in order. -/
structure Resource where
  attributes : List KeyValue
deriving DecidableEq

/-- `base_attributes` from `src/telemetry/resource.rs`. -/
def base_attributes (config : TelemetryConfig) : List KeyValue :=
  [⟨SERVICE_NAME, config.service_name⟩, ⟨SERVICE_VERSION, config.service_version⟩]

/-- `build_base_resource` from `src/telemetry/resource.rs`. -/
def build_base_resource (config : TelemetryConfig) : Resource :=
  ⟨base_attributes config⟩

/-- `build_resource` from `src/telemetry/resource.rs`: base attributes first,
additional attributes appended in caller order. -/
def build_resource (config : TelemetryConfig) (additional : List KeyValue) : Resource :=
  ⟨base_attributes config ++ additional⟩

/-! ## Env filter (`build_filter` in `src/telemetry/trace.rs`) -/

/-- `tracing_subscriber::EnvFilter`, modelled by its directive string. -/
structure EnvFilter where
  directives : String
deriving DecidableEq

/-- `EnvFilter::new` (builds a filter from a directive string). -/
def EnvFilter.new (s : String) : EnvFilter := ⟨s⟩

/-- `EnvFilter::try_from_default_env`: succeeds exactly when `RUST_LOG` is set
and parses as a valid filter. The directive parser lives in the external
`tracing_subscriber` crate, so it is taken as a parameter `parse` (returning
`none` on invalid directives). -/
def EnvFilter.try_from_default_env (parse : String → Option EnvFilter)
    (rustLog : Option String) : Option EnvFilter :=
  rustLog.bind parse

/-- `build_filter` from `src/telemetry/trace.rs`:
`EnvFilter::try_from_default_env().unwrap_or_else(|_| EnvFilter::new(&config.log_level))`. -/
def build_filter (parse : String → Option EnvFilter) (rustLog : Option String)
    (config : TelemetryConfig) : EnvFilter :=
  (EnvFilter.try_from_default_env parse rustLog).getD (EnvFilter.new config.log_level)

/-! ## Errors (`src/telemetry/error.rs`) -/

/-- `TelemetryError` from `src/telemetry/error.rs`: the single typed failure
returned by the bootstrap (`init*` functions). Its variants classify the
cause: `auth` (credential chain), `exporter` (transport construction),
`config`, `init`. -/
inductive TelemetryError where
  | auth (msg : String)
  | exporter (msg : String)
  | config (msg : String)
  | init (msg : String)
deriving DecidableEq

/-! ## Exporters and tracer providers -/

/-- `GcpAuthInterceptor` from `src/telemetry/gcp/auth.rs` (its identity:
the project id it injects; the wrapped `gcp_auth` provider is modelled
separately for the token-cache claims). -/
structure GcpAuthInterceptor where
  project_id : String
deriving DecidableEq

/-- The transport-level span exporter produced by
`opentelemetry_otlp::SpanExporter::builder()...build()`: its endpoint,
whether a GCP auth interceptor is attached, and whether TLS with native
roots is configured. -/
structure SpanExporter where
  endpoint : String
  interceptor : Option GcpAuthInterceptor
  tls : Bool
deriving DecidableEq

/-- `opentelemetry_sdk::trace::SdkTracerProvider`, modelled as the resource it
is bound to plus its optional batch exporter (`None` models the provider
built with no span processor at all — the local no-op path). -/
structure SdkTracerProvider where
  resource : Resource
  batchExporter : Option SpanExporter
deriving DecidableEq

/-- What happens to a finished span handed to a provider: a provider built
without any exporter drops it (without error); one with a batch exporter
enqueues it for export. Modelled from the OpenTelemetry SDK contract the
repository relies on (`src/telemetry/default/provider.rs` builds the
processor-less provider as its documented no-op mode). -/
def SdkTracerProvider.onSpanEnd (tp : SdkTracerProvider) (_span : String) : Except String Bool :=
  match tp.batchExporter with
  | none => .ok false
  | some _ => .ok true

/-- The process-wide ambient state threaded through the bootstrap:
environment variables, whether the ambient default-credential chain (ADC)
can produce a credential, and the two pieces of process-global state the
bootstrap installs. -/
structure World where
  env : Env
  adcAvailable : Bool
  subscriberInstalled : Bool
  globalTracerSet : Bool
deriving DecidableEq

/-- `GcpAuthInterceptor::from_adc` from `src/telemetry/gcp/auth.rs`:
`gcp_auth::provider()` fails when the environment has no usable default
credential; that failure is mapped to `TelemetryError::Auth`. -/
def GcpAuthInterceptor.from_adc (project_id : String) (w : World) :
    Except TelemetryError GcpAuthInterceptor :=
  if w.adcAvailable then .ok ⟨project_id⟩
  else .error (.auth "Failed to create auth provider: no usable default credentials")

/-- Characters admitted by the RFC 3986 URI grammar (unreserved, reserved
and the percent sign). -/
def uriChar (c : Char) : Bool :=
  c.isAlphanum || "-._~:/?#[]@!$&'()*+,;=%".data.contains c

/-- Whether an endpoint string survives the eager URI parse the tonic
transport performs at construction time (`Channel::from_shared`, i.e.
`http::Uri` parsing). Modelled as the URI character-set check plus
non-emptiness: a string containing a character outside the RFC 3986 set —
a space, say — is rejected, while any string of URI characters (including
a path-only reference such as `"invalid-url"`) is accepted; the finer
structural sub-checks of the full parser are not modelled. -/
def uriParses (endpoint : String) : Bool :=
  endpoint != "" && endpoint.data.all uriChar

/-- `opentelemetry_otlp::SpanExporter::builder()...build()`, the external
transport builder both call sites `map_err`. At construction time it
eagerly parses the endpoint as a URI and fails (`ExporterBuildError`, e.g.
the invalid-URI case at `Channel::from_shared`) when the endpoint is not a
syntactically valid URI reference; endpoint *resolution* is deferred to
connection time and no network state is consulted, so a merely non-URL
string like `"invalid-url"` (a valid path-only URI reference) builds
successfully — as the repository's own test
`default_provider_with_invalid_endpoint_succeeds_build`
(`src/telemetry/default/provider.rs`) asserts. -/
def otlpSpanExporterBuild (endpoint : String) (interceptor : Option GcpAuthInterceptor)
    (tls : Bool) : Except String SpanExporter :=
  if uriParses endpoint then .ok ⟨endpoint, interceptor, tls⟩
  else .error "invalid uri"

/-- `build_gcp_exporter` from `src/telemetry/gcp/exporter.rs`: acquires the
credential interceptor first, then builds the TLS transport with it. -/
def build_gcp_exporter (project_id endpoint : String) (w : World) :
    Except TelemetryError SpanExporter := do
  let auth_interceptor ← GcpAuthInterceptor.from_adc project_id w
  match otlpSpanExporterBuild endpoint (some auth_interceptor) true with
  | .error e => .error (.exporter e)
  | .ok exporter => .ok exporter

/-- `DefaultProvider::build_tracer_provider` from
`src/telemetry/default/provider.rs`: export to the configured OTLP endpoint,
or a processor-less (no-op) provider when no endpoint is configured. -/
def DefaultProvider.build_tracer_provider (config : TelemetryConfig) :
    Except TelemetryError SdkTracerProvider :=
  let resource := build_base_resource config
  match config.otlp_endpoint with
  | some endpoint =>
    match otlpSpanExporterBuild endpoint none false with
    | .error e => .error (.exporter e)
    | .ok exporter => .ok ⟨resource, some exporter⟩
  | none => .ok ⟨resource, none⟩

/-- `GcpResourceBuilder` from `src/telemetry/gcp/resource.rs`. -/
structure GcpResourceBuilder where
  project_id : String
  platform : GcpPlatform
  region : Option String
  service_id : Option String
  revision : Option String
deriving DecidableEq

/-- `GcpResourceBuilder::new` from `src/telemetry/gcp/resource.rs` (reads
region/service/revision markers from the environment). -/
def GcpResourceBuilder.new (project_id : String) (platform : GcpPlatform) (e : Env) :
    GcpResourceBuilder :=
  { project_id := project_id
    platform := platform
    region := (e.cloudRunRegion.orElse fun _ => e.functionRegion).orElse fun _ => e.gaeRegion
    service_id := (e.kService.orElse fun _ => e.functionName).orElse fun _ => e.gaeService
    revision := e.kRevision.orElse fun _ => e.gaeVersion }

/-- `GcpResourceBuilder::build` from `src/telemetry/gcp/resource.rs`. -/
def GcpResourceBuilder.build (b : GcpResourceBuilder) (config : TelemetryConfig) : Resource :=
  build_resource config
    ([⟨"cloud.provider", "gcp"⟩,
      ⟨"cloud.platform", b.platform.as_str⟩,
      ⟨"cloud.account.id", b.project_id⟩,
      ⟨"gcp.project_id", b.project_id⟩]
     ++ (match b.region with | some r => [⟨"cloud.region", r⟩] | none => [])
     ++ (match b.service_id with | some s => [⟨"faas.name", s⟩] | none => [])
     ++ (match b.revision with | some r => [⟨"faas.version", r⟩] | none => []))

/-- `GcpProvider::build_tracer_provider` from `src/telemetry/gcp/mod.rs`:
exporter (credential acquisition included) first, then the GCP resource,
then the batching provider. -/
def GcpProvider.build_tracer_provider (gcp : GcpConfig) (config : TelemetryConfig)
    (w : World) : Except TelemetryError SdkTracerProvider := do
  let exporter ← build_gcp_exporter gcp.project_id gcp.endpoint w
  let resource := (GcpResourceBuilder.new gcp.project_id gcp.platform w.env).build config
  .ok ⟨resource, some exporter⟩

/-- The `TelemetryProvider` trait object actually dispatched on by
`init_with_config` (`src/telemetry/api.rs`): the Local `DefaultProvider` or
the `GcpProvider` with its config. -/
inductive TelemetryProvider where
  | default
  | gcp (cfg : GcpConfig)
deriving DecidableEq

/-- Trait dispatch of `TelemetryProvider::build_tracer_provider`. -/
def TelemetryProvider.build_tracer_provider :
    TelemetryProvider → TelemetryConfig → World → Except TelemetryError SdkTracerProvider
  | .default, config, _ => DefaultProvider.build_tracer_provider config
  | .gcp cfg, config, w => GcpProvider.build_tracer_provider cfg config w

/-! ## Bootstrap and lifecycle (`src/telemetry/trace.rs`, `src/telemetry/api.rs`) -/

/-- `TelemetryGuard`. Modelled from the spec: `src/telemetry/api.rs` imports
`TelemetryGuard` from `trace.rs` and returns it from `init_with_provider`,
but its definition (and the `Drop` implementation the spec describes) is not
present in `src/`; per the spec it owns the constructed tracer provider and
its release is the sole trigger for flush-and-shutdown. -/
structure TelemetryGuard where
  provider : SdkTracerProvider
deriving DecidableEq

/-- The bounded flush timeout used on release. Modelled from the spec: the
spec requires a bounded timeout but fixes no value. -/
def guardFlushTimeoutMillis : Nat := 5000

/-- The two shutdown steps the lifecycle guard performs. -/
inductive ShutdownStep where
  | flushWithTimeout (timeoutMillis : Nat)
  | shutdownExporterResources
deriving DecidableEq

/-- `TelemetryGuard` release (drop). Modelled from the spec: flush buffered
spans synchronously with a bounded timeout, then release exporter
resources. In this embedding, release is the only operation that produces
`ShutdownStep`s. -/
def TelemetryGuard.release (_ : TelemetryGuard) : List ShutdownStep :=
  [.flushWithTimeout guardFlushTimeoutMillis, .shutdownExporterResources]

/-- The outcome of an initialization attempt, with the resulting process
state. `fatal` models a Rust panic (as opposed to a returned
`Err(TelemetryError)`). -/
inductive InitOutcome where
  | ok (guard : TelemetryGuard) (w : World)
  | err (e : TelemetryError) (w : World)
  | fatal (msg : String) (w : World)
deriving DecidableEq

/-- `init_subscriber` from `src/telemetry/trace.rs`: sets the global tracer
provider first, then installs the layered subscriber via
`tracing_subscriber`'s `.init()`. Per that crate's documented contract,
`.init()` panics when a global default subscriber is already installed —
modelled as the `fatal` outcome, distinct from every `err` outcome. On
success it returns the lifecycle guard owning the provider (guard modelled
from the spec, see `TelemetryGuard`). -/
def init_subscriber (provider : SdkTracerProvider) (_config : TelemetryConfig)
    (w : World) : InitOutcome :=
  let w1 := { w with globalTracerSet := true }
  if w1.subscriberInstalled then
    .fatal "a global default trace dispatcher has already been set" w1
  else
    .ok ⟨provider⟩ { w1 with subscriberInstalled := true }

/-- `init_with_provider` from `src/telemetry/api.rs`: build the tracer
provider; on failure propagate the `TelemetryError` without touching any
global state; on success install the subscriber and return the guard. -/
def init_with_provider (p : TelemetryProvider) (config : TelemetryConfig)
    (w : World) : InitOutcome :=
  match p.build_tracer_provider config w with
  | .error e => .err e w
  | .ok tracer_provider => init_subscriber tracer_provider config w

/-- `init_with_config` from `src/telemetry/api.rs`: dispatch on the
configured backend. -/
def init_with_config (config : TelemetryConfig) (w : World) : InitOutcome :=
  match config.backend with
  | .Local => init_with_provider .default config w
  | .Gcp gcp_config => init_with_provider (.gcp gcp_config) config w

/-- `init` from `src/telemetry/api.rs`: read the config from the environment,
then initialize. -/
def telemetryInit (w : World) : InitOutcome :=
  init_with_config (TelemetryConfig.from_env w.env) w

/-! ## Structured log formatter (`GcpJsonFormat` in `src/telemetry/trace.rs`) -/

/-- `tracing::Level`: the internal five-level scale. -/
inductive Level where
  | trace
  | debug
  | info
  | warn
  | error
deriving DecidableEq

/-- The severity mapping in `GcpJsonFormat::format_event`
(`src/telemetry/trace.rs`, the `match *event.metadata().level()`). -/
def severityOf : Level → String
  | .error => "ERROR"
  | .warn => "WARNING"
  | .info => "INFO"
  | .debug => "DEBUG"
  | .trace => "DEBUG"

/-- An event field value as collected by `JsonVisitor`
(`src/telemetry/trace.rs`): strings and debug renderings become JSON
strings, `i64`/`u64` become JSON numbers, `bool` becomes a JSON boolean.
`debugStr s` carries the already-rendered `format!("{:?}", value)` text of a
non-primitive value. -/
inductive FieldValue where
  | str (s : String)
  | i64 (i : Int)
  | u64 (n : Nat)
  | bool (b : Bool)
  | debugStr (s : String)
deriving DecidableEq

/-- Decimal digits of a natural number (structurally recursive via fuel so
that the kernel can evaluate it; `natRender` supplies enough fuel). -/
def natDigitsAux : Nat → Nat → List Char
  | 0, _ => []
  | fuel + 1, n =>
    if n < 10 then [Nat.digitChar n]
    else natDigitsAux fuel (n / 10) ++ [Nat.digitChar (n % 10)]

/-- Decimal rendering of a natural number. -/
def natRender (n : Nat) : String :=
  String.mk (natDigitsAux (n + 1) n)

/-- Decimal rendering of an integer (as `serde_json` renders `i64`). -/
def intRender (i : Int) : String :=
  if i < 0 then "-" ++ natRender i.natAbs else natRender i.natAbs

/-- One hex digit, lower case (as `serde_json` writes `\u00XX` escapes). -/
def hexDigitChar (n : Nat) : Char :=
  if n < 10 then Nat.digitChar n
  else if n = 10 then 'a'
  else if n = 11 then 'b'
  else if n = 12 then 'c'
  else if n = 13 then 'd'
  else if n = 14 then 'e'
  else 'f'

/-- `serde_json`'s escaping of one character inside a JSON string: quote and
backslash get a backslash escape, the named control characters get their
short escapes, other control characters become `\u00XX`, everything else is
written as itself. -/
def escapeChar (c : Char) : List Char :=
  if c = '"' then ['\\', '"']
  else if c = '\\' then ['\\', '\\']
  else if c.toNat = 8 then ['\\', 'b']
  else if c.toNat = 9 then ['\\', 't']
  else if c.toNat = 10 then ['\\', 'n']
  else if c.toNat = 12 then ['\\', 'f']
  else if c.toNat = 13 then ['\\', 'r']
  else if c.toNat < 32 then
    ['\\', 'u', '0', '0', hexDigitChar (c.toNat / 16), hexDigitChar (c.toNat % 16)]
  else [c]

/-- `serde_json` string escaping. -/
def jsonEscape (s : String) : String :=
  String.mk (s.data.flatMap escapeChar)

/-- `serde_json::to_string` of a collected field value
(`serde_json::Value::String`/`Number`/`Bool`). -/
def FieldValue.toJsonString : FieldValue → String
  | .str s => "\"" ++ jsonEscape s ++ "\""
  | .i64 i => intRender i
  | .u64 n => natRender n
  | .bool b => if b then "true" else "false"
  | .debugStr s => "\"" ++ jsonEscape s ++ "\""

/-- Byte-lexicographic comparison of strings (Rust `String` ordering; on
UTF-8, byte order and codepoint order coincide). -/
def charListLt : List Char → List Char → Bool
  | [], [] => false
  | [], _ :: _ => true
  | _ :: _, [] => false
  | a :: as, b :: bs =>
    if a.toNat < b.toNat then true
    else if b.toNat < a.toNat then false
    else charListLt as bs

/-- `serde_json::Map` is a `BTreeMap`: insertion keeps keys sorted and a
repeated key overwrites the previous value. -/
def mapInsert (k : String) (v : FieldValue) :
    List (String × FieldValue) → List (String × FieldValue)
  | [] => [(k, v)]
  | (k', v') :: rest =>
    if charListLt k.data k'.data then (k, v) :: (k', v') :: rest
    else if k = k' then (k, v) :: rest
    else (k', v') :: mapInsert k v rest

/-- `event.record(&mut json_visitor)`: visit the event fields in order,
inserting each into the `serde_json::Map`. -/
def collectFields (fields : List (String × FieldValue)) : List (String × FieldValue) :=
  fields.foldl (fun m kv => mapInsert kv.1 kv.2 m) []

/-- One log record as `GcpJsonFormat::format_event` sees it: the level and
target from the event metadata, the enclosing span's name together with its
pre-formatted `FormattedFields` text (the formatter splices that text in
verbatim), and the event's fields. -/
structure LogRecord where
  level : Level
  target : String
  span : Option (String × String)
  fields : List (String × FieldValue)
deriving DecidableEq

/-- Left brace / right brace as strings. -/
def lbr : String := "\x7b"

/-- Right brace. -/
def rbr : String := "\x7d"

/-- `GcpJsonFormat::format_event` from `src/telemetry/trace.rs`, write by
write: `{"severity":"..."`, then `,"timestamp":"..."` (the RFC3339
timestamp chrono renders for the current instant is taken as the `ts`
argument), then `,"target":"..."` with the target spliced in verbatim, then
— when an enclosing span has a non-empty `FormattedFields` text — the text
spliced verbatim into `,"span":{"name":"...",<text>}`, then each collected
event field as `,"<key>":<serde_json value>`, then `}` and a newline. -/
def format_event (ts : String) (r : LogRecord) : String :=
  lbr ++ "\"severity\":\"" ++ severityOf r.level ++ "\""
    ++ ",\"timestamp\":\"" ++ ts ++ "\""
    ++ ",\"target\":\"" ++ r.target ++ "\""
    ++ (match r.span with
        | some (name, ffs) =>
          if ffs = "" then ""
          else ",\"span\":" ++ lbr ++ "\"name\":\"" ++ name ++ "\"," ++ ffs ++ rbr
        | none => "")
    ++ String.join ((collectFields r.fields).map
        (fun kv => ",\"" ++ kv.1 ++ "\":" ++ kv.2.toJsonString))
    ++ rbr ++ "\n"

/-! ## A compact JSON recognizer

Used to state validity of formatter output. It recognizes JSON with no
inter-token whitespace (the formatter never emits any) and integer-only
numbers (the formatter can only emit integers). Everything it accepts is
valid JSON. -/

/-- Hex digit value. -/
def hexVal (c : Char) : Option Nat :=
  if '0' ≤ c ∧ c ≤ '9' then some (c.toNat - 48)
  else if 'a' ≤ c ∧ c ≤ 'f' then some (c.toNat - 87)
  else if 'A' ≤ c ∧ c ≤ 'F' then some (c.toNat - 55)
  else none

/-- Consume the body of a JSON string after its opening quote, including the
closing quote. Fuel-driven so the kernel can evaluate it. -/
def skipStringBody : Nat → List Char → Option (List Char)
  | 0, _ => none
  | _ + 1, [] => none
  | fuel + 1, c :: rest =>
    if c = '"' then some rest
    else if c = '\\' then
      match rest with
      | [] => none
      | e :: rest2 =>
        if e = '"' ∨ e = '\\' ∨ e = '/' ∨ e = 'b' ∨ e = 'f' ∨ e = 'n' ∨ e = 'r' ∨ e = 't' then
          skipStringBody fuel rest2
        else if e = 'u' then
          match rest2 with
          | h1 :: h2 :: h3 :: h4 :: rest3 =>
            match hexVal h1, hexVal h2, hexVal h3, hexVal h4 with
            | some _, some _, some _, some _ => skipStringBody fuel rest3
            | _, _, _, _ => none
          | _ => none
        else none
    else if c.toNat < 32 then none
    else skipStringBody fuel rest

/-- Consume a run of decimal digits. -/
def skipDigits : List Char → List Char
  | c :: rest => if c.isDigit then skipDigits rest else c :: rest
  | [] => []

/-- Mode of the JSON recognizer: a value, the members of an object after its
opening brace, or the elements of an array after its opening bracket. -/
inductive JMode where
  | value
  | members
  | elements
deriving DecidableEq

/-- The recognizer: consumes one JSON value (or member list / element list)
and returns the remaining input. Single fuel-driven function so that it is
structurally recursive and kernel-evaluable. -/
def skipJson : Nat → JMode → List Char → Option (List Char)
  | 0, _, _ => none
  | _ + 1, _, [] => none
  | fuel + 1, .value, c :: rest =>
    if c = '"' then skipStringBody (rest.length + 1) rest
    else if c = '\x7b' then
      match rest with
      | '\x7d' :: rest2 => some rest2
      | _ => skipJson fuel .members rest
    else if c = '[' then
      match rest with
      | ']' :: rest2 => some rest2
      | _ => skipJson fuel .elements rest
    else if c = 't' then
      match rest with
      | 'r' :: 'u' :: 'e' :: rest2 => some rest2
      | _ => none
    else if c = 'f' then
      match rest with
      | 'a' :: 'l' :: 's' :: 'e' :: rest2 => some rest2
      | _ => none
    else if c = 'n' then
      match rest with
      | 'u' :: 'l' :: 'l' :: rest2 => some rest2
      | _ => none
    else if c = '-' then
      match rest with
      | d :: rest2 => if d.isDigit then some (skipDigits rest2) else none
      | [] => none
    else if c.isDigit then some (skipDigits rest)
    else none
  | fuel + 1, .members, c :: rest =>
    if c = '"' then
      match skipStringBody (rest.length + 1) rest with
      | some (':' :: rest2) =>
        match skipJson fuel .value rest2 with
        | some (',' :: rest3) => skipJson fuel .members rest3
        | some ('\x7d' :: rest3) => some rest3
        | _ => none
      | _ => none
    else none
  | fuel + 1, .elements, cs =>
    match skipJson fuel .value cs with
    | some (',' :: rest2) => skipJson fuel .elements rest2
    | some (']' :: rest2) => some rest2
    | _ => none

/-- A string is one valid line of JSON: it ends in exactly one newline, which
is its last character, and everything before that newline is a single JSON
value consuming the whole line. -/
def jsonLineValid (s : String) : Bool :=
  s.data.count '\n' == 1
    && s.data.getLast? == some '\n'
    && skipJson (4 * s.data.length + 16) .value s.data.dropLast == some []

/-! ## Credential cache (`src/telemetry/gcp/auth.rs`) -/

/-- A bearer token together with its expiry instant (instants as abstract
`Nat` ticks). -/
structure Token where
  value : String
  expiresAt : Nat
deriving DecidableEq

/-- The token cache held by the `gcp_auth` provider the interceptor wraps. -/
structure AuthCache where
  cached : Option Token
deriving DecidableEq

/-- One `provider.token(&[TRACE_SCOPE])` call, per the `gcp_auth` contract
quoted verbatim in `src/telemetry/gcp/auth.rs` ("TokenProvider handles
caching tokens for their lifetime", "Will not make a request if an
appropriate token is already cached"): a cached, still-valid token is
returned without any request; otherwise one refresh request is issued and
its result (`fresh`, the token the token endpoint mints in this window) is
cached. The returned flag records whether a refresh request was issued. -/
def tokenCall (fresh : Token) (now : Nat) (c : AuthCache) : Token × AuthCache × Bool :=
  match c.cached with
  | some t => if now < t.expiresAt then (t, c, false) else (fresh, ⟨some fresh⟩, true)
  | none => (fresh, ⟨some fresh⟩, true)

/-- A batch of `GcpAuthInterceptor::call` token fetches. The interceptor
holds the provider behind `Arc<Mutex<_>>` and fetches the token entirely
under `lock().await`, so every concurrent execution is equivalent to this
sequential fold over the mutex's serialization order (`times` are the
instants at which each caller acquires the lock). Returns the tokens the
callers observe, the final cache, and the number of refresh requests. -/
def runCalls (fresh : Token) : List Nat → AuthCache → List Token × AuthCache × Nat
  | [], c => ([], c, 0)
  | t :: ts, c =>
    match tokenCall fresh t c with
    | (tok, c', refreshed) =>
      match runCalls fresh ts c' with
      | (toks, cf, n) => (tok :: toks, cf, (if refreshed then 1 else 0) + n)

/-! ## Theorems -/

set_option maxRecDepth 40000 in
/-- Sanity check (not tied to a claim): on a record outside any span whose
target and field strings need no escaping, the formatter does emit one valid
JSON line. -/
theorem format_event_valid_on_span_free_record :
    jsonLineValid (format_event "2025-01-01T00:00:00.000000Z"
      ⟨.info, "app::server", none,
       [("message", .str "hello"), ("n", .i64 (-3)), ("ok", .bool true)]⟩) = true := by
  decide

set_option maxRecDepth 40000 in
/-- C1: the structured formatter does NOT emit valid JSON for every record.
Two concrete failing records, evaluated through the embedded
`format_event`: (1) the repository's own instrumented endpoint
(`src/main.rs`, span `hello` with field `user`) — the span's pre-formatted
`FormattedFields` text `user="alice"` is spliced verbatim into the `span`
object, yielding `{"name":"hello",user="alice"}`, which is not JSON;
(2) a record whose target contains a double quote, which is written
unescaped. The severity mapping itself is exhaustive, but the "valid JSON
for any input record" part of the claim fails on the code. -/
theorem format_event_emits_invalid_json :
    jsonLineValid (format_event "2025-01-01T00:00:00.000000Z"
      ⟨.info, "rust_cloud_run_service", some ("hello", "user=\"alice\""),
       [("message", .str "Hello endpoint called")]⟩) = false
    ∧ jsonLineValid (format_event "2025-01-01T00:00:00.000000Z"
        ⟨.warn, "a\"b", none, []⟩) = false := by
  constructor
  · decide
  · decide

/-- C2: with the Cloud backend configured and no usable ambient default
credential, `init_with_config` fails with the bootstrap error type carrying
the auth variant (credential acquisition fails before any exporter is
constructed), the world is returned unchanged (in particular no global
tracer and no subscriber were installed), and there is no silent downgrade
to a successful Local initialization. -/
theorem cloud_backend_auth_failure_fails_init (config : TelemetryConfig)
    (g : GcpConfig) (w : World)
    (hb : config.backend = .Gcp g) (hcred : w.adcAvailable = false) :
    init_with_config config w =
      .err (.auth "Failed to create auth provider: no usable default credentials") w
    ∧ (∀ guard w', init_with_config config w ≠ .ok guard w') := by
  have hmain : init_with_config config w =
      .err (.auth "Failed to create auth provider: no usable default credentials") w := by
    simp only [init_with_config, hb, init_with_provider,
      TelemetryProvider.build_tracer_provider, GcpProvider.build_tracer_provider,
      build_gcp_exporter, GcpAuthInterceptor.from_adc, hcred, if_false, Bool.false_eq_true]
    rfl
  exact ⟨hmain, fun guard w' h => by rw [hmain] at h; exact InitOutcome.noConfusion h⟩

/-- C2 witness: the spec's scenario `{backend: Cloud, project: ""}` with no
ambient credential. -/
theorem cloud_backend_auth_failure_fails_init_witness :
    init_with_config ((TelemetryConfig.new "svc" "1.0").with_backend (.Gcp (GcpConfig.new "")))
        ⟨Env.empty, false, false, false⟩ =
      .err (.auth "Failed to create auth provider: no usable default credentials")
        ⟨Env.empty, false, false, false⟩ :=
  (cloud_backend_auth_failure_fails_init
    ((TelemetryConfig.new "svc" "1.0").with_backend (.Gcp (GcpConfig.new "")))
    (GcpConfig.new "") ⟨Env.empty, false, false, false⟩ rfl rfl).1

/-- C3: when provider construction succeeds and no subscriber is installed
yet, initialization succeeds and returns the lifecycle guard owning the
constructed tracer provider; releasing that guard — the only operation in
this model that produces `ShutdownStep`s — first flushes buffered spans with
the bounded (positive, finite) timeout and then releases exporter
resources, in that order. -/
theorem init_returns_owning_guard_and_release_flushes_then_shuts_down
    (p : TelemetryProvider) (config : TelemetryConfig) (w : World)
    (tp : SdkTracerProvider)
    (hbuild : p.build_tracer_provider config w = .ok tp)
    (hfree : w.subscriberInstalled = false) :
    ∃ guard w', init_with_provider p config w = .ok guard w'
      ∧ guard.provider = tp
      ∧ guard.release =
          [.flushWithTimeout guardFlushTimeoutMillis, .shutdownExporterResources]
      ∧ 0 < guardFlushTimeoutMillis := by
  refine ⟨⟨tp⟩, { w with subscriberInstalled := true, globalTracerSet := true },
    ?_, rfl, rfl, by decide⟩
  simp [init_with_provider, hbuild, init_subscriber, hfree]

/-- C3 witness: Local backend, no endpoint, fresh process. -/
theorem init_returns_owning_guard_witness :
    ∃ guard w',
      init_with_provider .default (TelemetryConfig.new "svc" "1.0")
          ⟨Env.empty, false, false, false⟩ = .ok guard w'
      ∧ guard.provider =
          ⟨⟨[⟨"service.name", "svc"⟩, ⟨"service.version", "1.0"⟩]⟩, none⟩
      ∧ guard.release =
          [.flushWithTimeout guardFlushTimeoutMillis, .shutdownExporterResources]
      ∧ 0 < guardFlushTimeoutMillis :=
  init_returns_owning_guard_and_release_flushes_then_shuts_down
    .default (TelemetryConfig.new "svc" "1.0") ⟨Env.empty, false, false, false⟩
    ⟨⟨[⟨"service.name", "svc"⟩, ⟨"service.version", "1.0"⟩]⟩, none⟩ rfl rfl

/-- C4: backend auto-detection is a pure, deterministic function of the
environment: whenever the cloud project identifier chain
(`GOOGLE_CLOUD_PROJECT`/`GCLOUD_PROJECT`/`GCP_PROJECT`) yields a value, the
selection is the Cloud (GCP) backend built from the environment; whenever
it yields nothing, the selection is Local; and equal environments always
yield the same selection. -/
theorem backend_autodetect_deterministic (e : Env) :
    (∀ pid, e.projectIdChain = some pid →
      TelemetryBackend.from_env e =
        .Gcp ⟨pid, e.otelExporterOtlpEndpoint.getD DEFAULT_ENDPOINT,
              (GcpPlatform.detect e).getD .CloudRun⟩)
    ∧ (e.projectIdChain = none → TelemetryBackend.from_env e = .Local)
    ∧ (∀ e', e' = e → TelemetryBackend.from_env e' = TelemetryBackend.from_env e) := by
  refine ⟨fun pid hpid => ?_, fun hnone => ?_, fun e' he => by rw [he]⟩
  · simp [TelemetryBackend.from_env, GcpConfig.from_env, hpid]
  · simp [TelemetryBackend.from_env, GcpConfig.from_env, hnone]

/-- C4 witness: a project id set selects Cloud; the empty environment selects
Local. -/
theorem backend_autodetect_deterministic_witness :
    TelemetryBackend.from_env { Env.empty with googleCloudProject := some "proj" } =
      .Gcp ⟨"proj", DEFAULT_ENDPOINT, .CloudRun⟩
    ∧ TelemetryBackend.from_env Env.empty = .Local :=
  ⟨(backend_autodetect_deterministic
      { Env.empty with googleCloudProject := some "proj" }).1 "proj" rfl,
   (backend_autodetect_deterministic Env.empty).2.1 rfl⟩

/-- C5: a second installation of the global tracing pipeline in the same
process is fatal (the `tracing_subscriber` `.init()` panic), and that
outcome is distinct from every ordinary `TelemetryError` outcome
(auth/config/exporter failures surface as `err`, never as `fatal`) and from
every successful outcome — so at most one global pipeline can ever be
installed. -/
theorem double_initialization_is_fatal (p : TelemetryProvider)
    (config : TelemetryConfig) (w : World) (tp : SdkTracerProvider)
    (hbuild : p.build_tracer_provider config w = .ok tp)
    (hinstalled : w.subscriberInstalled = true) :
    init_with_provider p config w =
      .fatal "a global default trace dispatcher has already been set"
        { w with globalTracerSet := true }
    ∧ (∀ e w', init_with_provider p config w ≠ .err e w')
    ∧ (∀ guard w', init_with_provider p config w ≠ .ok guard w') := by
  have hmain : init_with_provider p config w =
      .fatal "a global default trace dispatcher has already been set"
        { w with globalTracerSet := true } := by
    simp [init_with_provider, hbuild, init_subscriber, hinstalled]
  refine ⟨hmain, fun e w' h => ?_, fun guard w' h => ?_⟩
  · rw [hmain] at h; exact InitOutcome.noConfusion h
  · rw [hmain] at h; exact InitOutcome.noConfusion h

/-- C5 witness: second initialization in a process whose subscriber is
already installed. -/
theorem double_initialization_is_fatal_witness :
    init_with_provider .default (TelemetryConfig.new "svc" "1.0")
        ⟨Env.empty, false, true, true⟩ =
      .fatal "a global default trace dispatcher has already been set"
        ⟨Env.empty, false, true, true⟩ :=
  (double_initialization_is_fatal .default (TelemetryConfig.new "svc" "1.0")
    ⟨Env.empty, false, true, true⟩
    ⟨⟨[⟨"service.name", "svc"⟩, ⟨"service.version", "1.0"⟩]⟩, none⟩ rfl rfl).1

/-- Helper: with credentials available, the Cloud exporter build reduces to
the underlying transport builder's result, error-mapped. -/
theorem build_gcp_exporter_eq (project_id endpoint : String) (w : World)
    (hadc : w.adcAvailable = true) :
    build_gcp_exporter project_id endpoint w =
      match otlpSpanExporterBuild endpoint (some ⟨project_id⟩) true with
      | .error e => .error (.exporter e)
      | .ok exporter => .ok exporter := by
  unfold build_gcp_exporter GcpAuthInterceptor.from_adc
  rw [hadc]
  exact rfl

/-- C6 counterexample: the malformed endpoint string `"invalid-url"` (the
input of the repository's own test
`default_provider_with_invalid_endpoint_succeeds_build`) does NOT make
exporter construction return an `ExporterBuildError` — the Local build
succeeds with an exporter bound to that endpoint. -/
theorem malformed_endpoint_builds_successfully :
    DefaultProvider.build_tracer_provider
        ((TelemetryConfig.new "test-service" "1.0.0").with_otlp_endpoint "invalid-url") =
      .ok ⟨⟨[⟨"service.name", "test-service"⟩, ⟨"service.version", "1.0.0"⟩]⟩,
           some ⟨"invalid-url", none, false⟩⟩ := by
  rfl

/-- C6 amended: exporter construction (Local or Cloud variant) returns an
`ExporterBuildError` exactly when the underlying transport builder reports
a construction failure — which its eager URI parse does for endpoint
strings that are not syntactically valid URIs, but not for every malformed
endpoint (a URI-parseable non-URL such as `"invalid-url"` builds
successfully, per the repository's own test); both variants map such a
builder failure to the `exporter` error variant and pass a builder success
through, and — construction consulting no network state — the Cloud build's
outcome is the same in every credential-bearing world, so network
unreachability cannot fail construction. -/
theorem exporter_build_error_exactly_on_builder_failure
    (endpoint project_id m : String) (config : TelemetryConfig) (w : World)
    (hend : config.otlp_endpoint = some endpoint) (hadc : w.adcAvailable = true) :
    (otlpSpanExporterBuild endpoint none false = .error m →
      DefaultProvider.build_tracer_provider config = .error (.exporter m))
    ∧ (∀ ex, otlpSpanExporterBuild endpoint none false = .ok ex →
      DefaultProvider.build_tracer_provider config =
        .ok ⟨build_base_resource config, some ex⟩)
    ∧ (otlpSpanExporterBuild endpoint (some ⟨project_id⟩) true = .error m →
      build_gcp_exporter project_id endpoint w = .error (.exporter m))
    ∧ (∀ ex, otlpSpanExporterBuild endpoint (some ⟨project_id⟩) true = .ok ex →
      build_gcp_exporter project_id endpoint w = .ok ex)
    ∧ (∀ w' : World, w'.adcAvailable = true →
      build_gcp_exporter project_id endpoint w' =
        build_gcp_exporter project_id endpoint w) := by
  refine ⟨fun h => ?_, fun ex h => ?_, fun h => ?_, fun ex h => ?_, fun w' hw' => ?_⟩
  · simp [DefaultProvider.build_tracer_provider, hend, h]
  · simp [DefaultProvider.build_tracer_provider, hend, h]
  · rw [build_gcp_exporter_eq project_id endpoint w hadc, h]
  · rw [build_gcp_exporter_eq project_id endpoint w hadc, h]
  · rw [build_gcp_exporter_eq project_id endpoint w' hw',
      build_gcp_exporter_eq project_id endpoint w hadc]

/-- C6 amended witness: both behaviors at concrete endpoints — the
URI-invalid endpoint `"bad endpoint"` (contains a space) fails construction
with the `exporter` error variant in both the Local and the Cloud build,
while the URI-parseable malformed endpoint `"invalid-url"` builds
successfully in both. -/
theorem exporter_build_error_exactly_on_builder_failure_witness :
    DefaultProvider.build_tracer_provider
        ((TelemetryConfig.new "svc" "1.0").with_otlp_endpoint "bad endpoint") =
      .error (.exporter "invalid uri")
    ∧ build_gcp_exporter "proj" "bad endpoint" ⟨Env.empty, true, false, false⟩ =
        .error (.exporter "invalid uri")
    ∧ DefaultProvider.build_tracer_provider
        ((TelemetryConfig.new "svc" "1.0").with_otlp_endpoint "invalid-url") =
      .ok ⟨⟨[⟨"service.name", "svc"⟩, ⟨"service.version", "1.0"⟩]⟩,
           some ⟨"invalid-url", none, false⟩⟩
    ∧ build_gcp_exporter "proj" "invalid-url" ⟨Env.empty, true, false, false⟩ =
        .ok ⟨"invalid-url", some ⟨"proj"⟩, true⟩ :=
  ⟨(exporter_build_error_exactly_on_builder_failure "bad endpoint" "proj" "invalid uri"
      ((TelemetryConfig.new "svc" "1.0").with_otlp_endpoint "bad endpoint")
      ⟨Env.empty, true, false, false⟩ rfl rfl).1 rfl,
   (exporter_build_error_exactly_on_builder_failure "bad endpoint" "proj" "invalid uri"
      ((TelemetryConfig.new "svc" "1.0").with_otlp_endpoint "bad endpoint")
      ⟨Env.empty, true, false, false⟩ rfl rfl).2.2.1 rfl,
   (exporter_build_error_exactly_on_builder_failure "invalid-url" "proj" "invalid uri"
      ((TelemetryConfig.new "svc" "1.0").with_otlp_endpoint "invalid-url")
      ⟨Env.empty, true, false, false⟩ rfl rfl).2.1
      ⟨"invalid-url", none, false⟩ rfl,
   (exporter_build_error_exactly_on_builder_failure "invalid-url" "proj" "invalid uri"
      ((TelemetryConfig.new "svc" "1.0").with_otlp_endpoint "invalid-url")
      ⟨Env.empty, true, false, false⟩ rfl rfl).2.2.2.1
      ⟨"invalid-url", some ⟨"proj"⟩, true⟩ rfl⟩

/-- C7: with the Local backend and no configured export endpoint (and a
fresh process), initialization succeeds — never a failure — and the guard
owns a provider with no exporter at all, which drops every finished span
without error. -/
theorem local_backend_no_endpoint_is_noop_success (config : TelemetryConfig)
    (w : World) (hb : config.backend = .Local) (hend : config.otlp_endpoint = none)
    (hfree : w.subscriberInstalled = false) :
    ∃ guard w', init_with_config config w = .ok guard w'
      ∧ guard.provider.batchExporter = none
      ∧ ∀ span, guard.provider.onSpanEnd span = .ok false := by
  refine ⟨⟨⟨build_base_resource config, none⟩⟩,
    { w with subscriberInstalled := true, globalTracerSet := true }, ?_, rfl,
    fun span => rfl⟩
  simp [init_with_config, hb, init_with_provider, TelemetryProvider.build_tracer_provider,
    DefaultProvider.build_tracer_provider, hend, init_subscriber, hfree]

/-- C7 witness: the spec's scenario `{endpoint: none, backend: Local}`. -/
theorem local_backend_no_endpoint_is_noop_success_witness :
    ∃ guard w',
      init_with_config (TelemetryConfig.new "test-service" "1.0.0")
          ⟨Env.empty, false, false, false⟩ = .ok guard w'
      ∧ guard.provider.batchExporter = none
      ∧ ∀ span, guard.provider.onSpanEnd span = .ok false :=
  local_backend_no_endpoint_is_noop_success (TelemetryConfig.new "test-service" "1.0.0")
    ⟨Env.empty, false, false, false⟩ rfl rfl rfl

/-- C8: resource building is total (a plain function with no failure mode):
for every config and every list of backend-supplied attributes it yields
exactly the base attributes — service name then service version — followed
by the backend attributes in caller order; and any config built via
builder defaults carries the non-empty crate name and version. -/
theorem resource_attributes_base_first_then_appended :
    (∀ (config : TelemetryConfig) (additional : List KeyValue),
        (build_resource config additional).attributes =
          [⟨SERVICE_NAME, config.service_name⟩, ⟨SERVICE_VERSION, config.service_version⟩]
            ++ additional)
    ∧ (∀ b : TelemetryConfigBuilder, b.service_name = none →
        b.build.service_name = CARGO_PKG_NAME ∧ b.build.service_name ≠ "")
    ∧ (∀ b : TelemetryConfigBuilder, b.service_version = none →
        b.build.service_version = CARGO_PKG_VERSION ∧ b.build.service_version ≠ "")
    ∧ TelemetryConfigBuilder.default.build.service_name ≠ ""
    ∧ TelemetryConfigBuilder.default.build.service_version ≠ "" := by
  refine ⟨fun config additional => rfl, fun b hname => ?_, fun b hver => ?_,
    by decide, by decide⟩
  · rw [TelemetryConfigBuilder.build]
    simp [hname, CARGO_PKG_NAME]
  · rw [TelemetryConfigBuilder.build]
    simp [hver, CARGO_PKG_VERSION]

/-- C8 witness: concrete config and attributes, default builder. -/
theorem resource_attributes_base_first_witness :
    (build_resource (TelemetryConfig.new "test-service" "1.2.3")
        [⟨"custom.attr", "value"⟩]).attributes =
      [⟨SERVICE_NAME, "test-service"⟩, ⟨SERVICE_VERSION, "1.2.3"⟩, ⟨"custom.attr", "value"⟩]
    ∧ TelemetryConfigBuilder.default.build.service_name = CARGO_PKG_NAME
    ∧ TelemetryConfigBuilder.default.build.service_name ≠ "" :=
  ⟨resource_attributes_base_first_then_appended.1
      (TelemetryConfig.new "test-service" "1.2.3") [⟨"custom.attr", "value"⟩],
   (resource_attributes_base_first_then_appended.2.1 TelemetryConfigBuilder.default rfl).1,
   (resource_attributes_base_first_then_appended.2.1 TelemetryConfigBuilder.default rfl).2⟩

/-- Helper: while the cached token is valid at every call instant, every
caller gets that cached token back, the cache is untouched, and no refresh
request is issued. -/
theorem runCalls_cached_valid (fresh tok : Token) (ts : List Nat) (c : AuthCache)
    (hc : c.cached = some tok) (hv : ∀ t ∈ ts, t < tok.expiresAt) :
    runCalls fresh ts c = (ts.map fun _ => tok, c, 0) := by
  induction ts with
  | nil => simp [runCalls]
  | cons t ts ih =>
    have hlt : t < tok.expiresAt := hv t (by simp)
    have hrest := ih fun u hu => hv u (by simp [hu])
    simp [runCalls, tokenCall, hc, hlt, hrest]

/-- C9: token acquisition is coalesced. Concurrent callers are serialized by
the interceptor's mutex, so a concurrent execution is a `runCalls` fold
over the serialization order. First part: in an expired-token window (the
cache is empty or its token has expired by the first call, and the freshly
minted token is still valid at every later call), exactly ONE underlying
refresh request is issued and every caller observes the same fresh token.
Second part: a successfully cached token is returned unchanged to every
caller within its validity window, with no refresh at all. -/
theorem concurrent_token_acquisitions_coalesce (fresh : Token) :
    (∀ t0 ts c, (∀ t ∈ ts, t < fresh.expiresAt) →
        (∀ tok, c.cached = some tok → tok.expiresAt ≤ t0) →
        runCalls fresh (t0 :: ts) c = ((t0 :: ts).map fun _ => fresh, ⟨some fresh⟩, 1))
    ∧ (∀ tok ts c, c.cached = some tok → (∀ t ∈ ts, t < tok.expiresAt) →
        runCalls fresh ts c = (ts.map fun _ => tok, c, 0)) := by
  constructor
  · intro t0 ts c hv hexp
    have hstep : tokenCall fresh t0 c = (fresh, ⟨some fresh⟩, true) := by
      cases hcc : c.cached with
      | none => simp [tokenCall, hcc]
      | some tok => simp [tokenCall, hcc, Nat.not_lt.mpr (hexp tok hcc)]
    have hrest : runCalls fresh ts (⟨some fresh⟩ : AuthCache) =
        (ts.map fun _ => fresh, (⟨some fresh⟩ : AuthCache), 0) :=
      runCalls_cached_valid fresh fresh ts ⟨some fresh⟩ rfl hv
    simp [runCalls, hstep, hrest]
  · intro tok ts c hc hv
    exact runCalls_cached_valid fresh tok ts c hc hv

/-- C9 witness: three serialized callers starting from an empty cache issue
one refresh and all see the fresh token; three callers against a valid
cached token issue none. -/
theorem concurrent_token_acquisitions_coalesce_witness :
    runCalls ⟨"fresh-token", 100⟩ [10, 20, 30] ⟨none⟩ =
      ([⟨"fresh-token", 100⟩, ⟨"fresh-token", 100⟩, ⟨"fresh-token", 100⟩],
       ⟨some ⟨"fresh-token", 100⟩⟩, 1)
    ∧ runCalls ⟨"fresh-token", 100⟩ [10, 20, 30] ⟨some ⟨"cached-token", 50⟩⟩ =
      ([⟨"cached-token", 50⟩, ⟨"cached-token", 50⟩, ⟨"cached-token", 50⟩],
       ⟨some ⟨"cached-token", 50⟩⟩, 0) :=
  ⟨(concurrent_token_acquisitions_coalesce ⟨"fresh-token", 100⟩).1 10 [20, 30] ⟨none⟩
      (by decide) (fun tok h => nomatch h),
   (concurrent_token_acquisitions_coalesce ⟨"fresh-token", 100⟩).2
      ⟨"cached-token", 50⟩ [10, 20, 30] ⟨some ⟨"cached-token", 50⟩⟩ rfl (by decide)⟩

/-- C10: the installed severity filter comes from `RUST_LOG` whenever it is
set and parses as a valid filter; the config's `log_level` field — even one
set explicitly through `with_log_level` or the builder — is used only when
`RUST_LOG` is unset or invalid. -/
theorem rust_log_env_filter_precedence (parse : String → Option EnvFilter)
    (config : TelemetryConfig) :
    (∀ s f, parse s = some f → build_filter parse (some s) config = f)
    ∧ build_filter parse none config = EnvFilter.new config.log_level
    ∧ (∀ s, parse s = none →
        build_filter parse (some s) config = EnvFilter.new config.log_level)
    ∧ (∀ level, build_filter parse none (config.with_log_level level) =
        EnvFilter.new level)
    ∧ (∀ (b : TelemetryConfigBuilder) (level : String), b.log_level = some level →
        build_filter parse none b.build = EnvFilter.new level) := by
  refine ⟨fun s f hf => ?_, ?_, fun s hf => ?_, fun level => ?_, fun b level hb => ?_⟩
  · simp [build_filter, EnvFilter.try_from_default_env, hf]
  · simp [build_filter, EnvFilter.try_from_default_env]
  · simp [build_filter, EnvFilter.try_from_default_env, hf]
  · simp [build_filter, EnvFilter.try_from_default_env, TelemetryConfig.with_log_level]
  · simp [build_filter, EnvFilter.try_from_default_env, TelemetryConfigBuilder.build, hb]

/-- C10 witness: a concrete directive parser; `RUST_LOG=debug` wins over the
explicit `with_log_level("warn")`, an invalid `RUST_LOG` falls back to it,
and an unset `RUST_LOG` uses the builder-set level. -/
theorem rust_log_env_filter_precedence_witness :
    build_filter (fun s => if s = "debug" then some ⟨"debug"⟩ else none) (some "debug")
        ((TelemetryConfig.new "svc" "1.0").with_log_level "warn") = ⟨"debug"⟩
    ∧ build_filter (fun s => if s = "debug" then some ⟨"debug"⟩ else none) (some "not a filter")
        ((TelemetryConfig.new "svc" "1.0").with_log_level "warn") = EnvFilter.new "warn"
    ∧ build_filter (fun s => if s = "debug" then some ⟨"debug"⟩ else none) none
        ((TelemetryConfig.new "svc" "1.0").with_log_level "warn") = EnvFilter.new "warn" :=
  ⟨(rust_log_env_filter_precedence (fun s => if s = "debug" then some ⟨"debug"⟩ else none)
      ((TelemetryConfig.new "svc" "1.0").with_log_level "warn")).1 "debug" ⟨"debug"⟩ (by decide),
   (rust_log_env_filter_precedence (fun s => if s = "debug" then some ⟨"debug"⟩ else none)
      ((TelemetryConfig.new "svc" "1.0").with_log_level "warn")).2.2.1 "not a filter" (by decide),
   (rust_log_env_filter_precedence (fun s => if s = "debug" then some ⟨"debug"⟩ else none)
      ((TelemetryConfig.new "svc" "1.0").with_log_level "warn")).2.2.2.1 "warn"⟩
